import Mathlib

/-!
Verification development for the fio-matrix benchmark orchestration engine.

The Rust sources (src/src/main.rs, src/src/command.rs, src/src/config.rs) are
shallowly embedded below:

* pure arithmetic (`calculate_nr_hugepages_int`, `calculate_nr_hugepages`) is
  translated directly, with `u64` arithmetic modeled as `Nat` reduced mod 2^64
  at every operation that can wrap (release-mode Rust wraps on overflow);
  the bit-masking `(x + mask) & !mask` with `mask = 2^21 - 1` is expressed as
  flooring division, which is exact for values below 2^64;
* effectful code (process spawns, control-file writes, directory operations)
  is embedded as a writer/state/except monad `M` producing a trace of `Event`s,
  with an `Env` oracle deciding the outcome of each external effect;
* fallible code returns `Except Err _` with the source's context strings kept.
-/

/-- Errors produced by the engine; mirrors the `anyhow` error values and the
`.context(...)` wrapping used throughout the source. -/
inductive Err
  /-- `check_status` failure for a process exiting with the given code,
  src/src/command.rs:94-100. -/
  | procFailed (code : Nat)
  /-- `anyhow!("Invalid retry count value")`, src/src/command.rs:60-62. -/
  | invalidRetryCount
  /-- the `unreachable!()` loop exit of `spawn_retry`, src/src/command.rs:84. -/
  | unreachableLoopExit
  /-- a failed open/write of a control file at the given path. -/
  | writeFailed (path : String)
  /-- a failed directory creation at the given path. -/
  | createDirFailed (path : String)
  /-- a failed directory removal. -/
  | removeDirFailed
  /-- a `byte_unit` parse failure on the given string. -/
  | parseError (s : String)
  /-- a plain `anyhow!` message. -/
  | msg (s : String)
  /-- `anyhow::Context::context`: wraps an error with a message. -/
  | ctx (s : String) (e : Err)
deriving DecidableEq, Repr

deriving instance DecidableEq for Except

/-- 2^64, the modulus of Rust `u64` arithmetic. -/
def u64Mod : Nat := 2 ^ 64

/-- Rust `u64::div_ceil`: quotient, plus one when the remainder is nonzero. -/
def rustDivCeil (a b : Nat) : Nat := a / b + (if a % b = 0 then 0 else 1)

/-- The page size constant of `calculate_nr_hugepages_int`,
src/src/main.rs:682: `2u64.pow(10) * 4`. -/
def page_size : Nat := 2 ^ 10 * 4

/-- The huge page size constant of `calculate_nr_hugepages_int`,
src/src/main.rs:683: `2u64.pow(20) * 2`. -/
def huge_page_size : Nat := 2 ^ 20 * 2

/-- `page_mask = page_size - 1`, src/src/main.rs:684. -/
def page_mask : Nat := page_size - 1

/-- `huge_page_mask = huge_page_size - 1`, src/src/main.rs:685. -/
def huge_page_mask : Nat := huge_page_size - 1

/-- The `per_job_mem` accumulator of `calculate_nr_hugepages_int`,
src/src/main.rs:687-691, on wrapped `u64` arithmetic.  The source's
`(x + huge_page_mask) & !huge_page_mask` clears the low 21 bits of the
(wrapped) sum, which for values below 2^64 is flooring division by 2^21
followed by multiplication. -/
def per_job_mem_calc (queue_depth block_size : Nat) : Nat :=
  let m1 := block_size * queue_depth % u64Mod
  let m2 := (m1 + page_mask) % u64Mod
  let m3 := (m2 + huge_page_mask) % u64Mod / huge_page_size * huge_page_size
  let m4 := (m3 + page_mask) % u64Mod
  (m4 + huge_page_mask) % u64Mod / huge_page_size * huge_page_size

/-- `calculate_nr_hugepages_int`, src/src/main.rs:678-698: the fio-style
huge page count for one (queue depth, block size in bytes, job count).
Always returns `Ok` in the source; the `Except` is kept for the signature. -/
def calculate_nr_hugepages_int (queue_depth block_size jobcount : Nat) :
    Except Err Nat :=
  let required_mem := jobcount * per_job_mem_calc queue_depth block_size % u64Mod
  Except.ok (rustDivCeil required_mem huge_page_size)

/-- Strip leading and trailing spaces from a character list. -/
def trimChars (cs : List Char) : List Char :=
  ((cs.dropWhile (· = ' ')).reverse.dropWhile (· = ' ')).reverse

/-- The natural number denoted by a list of decimal digits. -/
def digitsToNat (cs : List Char) : Nat :=
  cs.foldl (fun acc c => acc * 10 + (c.toNat - 48)) 0

/-- Modelled from the spec: the multiplier for a byte-size unit suffix as
interpreted by the external `byte_unit` crate on the strings this repository
uses.  The crate's source is not part of this repository; the spec's examples
fix `"4k"` ↦ 4096 (so `k`/`K` is the 1024-based kibibyte), `"16MiB"` ↦
16·2^20, `"32 KiB"` ↦ 32·1024, and a plain number ↦ bytes. -/
def unitMultiplier : List Char → Option Nat
  | [] => some 1
  | ['B'] => some 1
  | ['k'] => some 1024
  | ['K'] => some 1024
  | ['K', 'i', 'B'] => some 1024
  | ['M'] => some (2 ^ 20)
  | ['M', 'i', 'B'] => some (2 ^ 20)
  | ['G'] => some (2 ^ 30)
  | ['G', 'i', 'B'] => some (2 ^ 30)
  | _ => none

/-- Modelled from the spec: `byte_unit::Byte::parse_str` (external crate) on
the decimal-number-plus-optional-unit strings appearing in this repository's
configuration and tests: an optional-whitespace-separated decimal count and
unit suffix, combined per `unitMultiplier`. -/
def parse_str (s : String) : Option Nat :=
  let t := trimChars s.data
  let digits := t.takeWhile Char.isDigit
  let rest := trimChars (t.drop digits.length)
  if digits = [] then none
  else
    match unitMultiplier rest with
    | some m => some (digitsToNat digits * m)
    | none => none

/-- `ModuleReloadPolicy`, src/src/config.rs:129-133. -/
inductive ModuleReloadPolicy
  | Always
  | Once
deriving DecidableEq, Repr

/-- `Config`, src/src/config.rs:135-193.  Paths and URLs are represented as
strings.  The `use_hugepages` field is modelled from the spec ("huge-page-use
flag", spec §3): src/src/main.rs reads `config.use_hugepages` but the provided
src/src/config.rs snapshot does not declare the field. -/
structure Config where
  samples : Nat
  runtime : Nat
  ramp : Nat
  device : String
  jobcounts : List Nat
  workloads : List String
  queue_depths : List Nat
  block_sizes : List String
  prep : Bool
  fio : String
  configure_c_nullblk : Bool
  disable_boost_amd : Bool
  disable_boost_intel : Bool
  amd_pstate_fixed_3ghz : Bool
  cpufreq_governor_performance : Bool
  hipri : Bool
  module : Option String
  module_args : List String
  modprobe : Bool
  insmod : Bool
  module_reload_policy : ModuleReloadPolicy
  compress : Bool
  verify : Bool
  capture : Bool
  use_hugepages : Bool
  tag : Option String
  output_path : Option String
  remote : Option String
deriving DecidableEq, Repr

/-- `Config::default()`, src/src/config.rs:254-286. -/
def Config.default : Config where
  samples := 30
  runtime := 30
  ramp := 10
  device := "/dev/null"
  jobcounts := [1]
  workloads := ["read"]
  queue_depths := [1]
  block_sizes := ["4k"]
  prep := false
  fio := "fio"
  configure_c_nullblk := false
  disable_boost_amd := false
  disable_boost_intel := false
  amd_pstate_fixed_3ghz := false
  cpufreq_governor_performance := false
  hipri := false
  module := none
  module_args := []
  modprobe := false
  insmod := false
  module_reload_policy := ModuleReloadPolicy.Always
  compress := false
  verify := false
  capture := false
  use_hugepages := false
  tag := none
  output_path := none
  remote := none

/-- `Config::verify`, src/src/config.rs:196-218: configuration validation,
checks performed in source order. -/
def config_verify (cfg : Config) : Except Err Unit :=
  if cfg.insmod && cfg.modprobe then
    Except.error (Err.msg "Cannot set insmod and probe at the same time")
  else if cfg.module.isSome && !(cfg.insmod || cfg.modprobe) then
    Except.error (Err.msg "Missing insmod or modprobe option")
  else if cfg.compress && !cfg.capture then
    Except.error (Err.msg "Cannot compress without capture")
  else if cfg.remote.isSome && !cfg.compress then
    Except.error (Err.msg "Cannot upload without compress")
  else if cfg.remote.isSome && !cfg.capture then
    Except.error (Err.msg "Cannot upload without capture")
  else
    Except.ok ()

/-- `calculate_nr_hugepages`, src/src/main.rs:646-676: the sweep-wide huge
page requirement, taking the maximum of each axis independently.  The source
errors (in this order) on an empty `jobcounts`, an unparsable block-size
string, an empty `block_sizes`, and an empty `queue_depths`. -/
def calculate_nr_hugepages (cfg : Config) : Except Err Nat :=
  match cfg.jobcounts.max? with
  | none => Except.error (Err.msg "jobcounts empty")
  | some jobcount =>
    match cfg.block_sizes.mapM parse_str with
    | none => Except.error (Err.parseError "block size parse failed")
    | some parsed =>
      match parsed.max? with
      | none => Except.error (Err.msg "block_sizes empty")
      | some block_size =>
        match cfg.queue_depths.max? with
        | none => Except.error (Err.msg "queue_depths empty")
        | some queue_depth =>
          calculate_nr_hugepages_int queue_depth block_size jobcount

/-- The per-job memory amount as §4.2/§8 of the spec words it, on ideal
(unbounded) natural-number arithmetic: block_size × queue_depth, plus the
4 KiB page mask, rounded up to the next 2 MiB huge-page boundary, plus the
page mask again, rounded up to the huge-page boundary a second time. -/
def per_job_mem_spec (queue_depth block_size : Nat) : Nat :=
  let p1 := block_size * queue_depth + page_mask
  let p2 := rustDivCeil p1 huge_page_size * huge_page_size
  let p3 := p2 + page_mask
  rustDivCeil p3 huge_page_size * huge_page_size

/-- The huge-page count as the spec words it: per-job memory multiplied by
job count, divided by the huge-page size rounding up. -/
def hugepage_count_spec (queue_depth block_size jobcount : Nat) : Nat :=
  rustDivCeil (jobcount * per_job_mem_spec queue_depth block_size) huge_page_size

theorem rustDivCeil_eq_add_sub_div (a b : Nat) (hb : 0 < b) :
    rustDivCeil a b = (a + b - 1) / b := by
  have hd := Nat.div_add_mod a b
  have hr : a % b < b := Nat.mod_lt _ hb
  rcases Nat.eq_zero_or_pos (a % b) with h | h
  · rw [rustDivCeil, if_pos h]
    have e1 : a + b - 1 = b * (a / b) + (b - 1) := by omega
    rw [e1, Nat.mul_add_div hb, Nat.div_eq_of_lt (show b - 1 < b by omega)]
  · have e2 : b * (a / b + 1) = b * (a / b) + b := by ring
    have e1 : a + b - 1 = b * (a / b + 1) + (a % b - 1) := by rw [e2]; omega
    rw [rustDivCeil, if_neg (by omega), e1, Nat.mul_add_div hb,
      Nat.div_eq_of_lt (show a % b - 1 < b by omega)]

theorem mask_round_eq_divCeil (x : Nat) :
    (x + huge_page_mask) / huge_page_size * huge_page_size
      = rustDivCeil x huge_page_size * huge_page_size := by
  have hhm : huge_page_mask = 2097151 := rfl
  have hhs : huge_page_size = 2097152 := rfl
  rw [rustDivCeil_eq_add_sub_div x huge_page_size (by omega)]
  have hx : x + huge_page_mask = x + huge_page_size - 1 := by omega
  rw [hx]

theorem per_job_mem_calc_lt (queue_depth block_size : Nat) :
    per_job_mem_calc queue_depth block_size < u64Mod := by
  have h1 : ∀ a : Nat, a % u64Mod / huge_page_size * huge_page_size < u64Mod := by
    intro a
    calc a % u64Mod / huge_page_size * huge_page_size
        ≤ a % u64Mod := Nat.div_mul_le_self _ _
      _ < u64Mod := Nat.mod_lt _ (by norm_num [u64Mod])
  exact h1 _

theorem per_job_mem_calc_eq_spec (queue_depth block_size : Nat)
    (h : block_size * queue_depth + 2 * (page_mask + huge_page_mask) < u64Mod) :
    per_job_mem_calc queue_depth block_size = per_job_mem_spec queue_depth block_size := by
  have hpm : page_mask = 4095 := rfl
  have hhm : huge_page_mask = 2097151 := rfl
  have hhs : huge_page_size = 2097152 := rfl
  have hu : u64Mod = 18446744073709551616 := rfl
  simp only [per_job_mem_calc, per_job_mem_spec]
  rw [Nat.mod_eq_of_lt (show block_size * queue_depth < u64Mod by omega)]
  rw [Nat.mod_eq_of_lt (show block_size * queue_depth + page_mask < u64Mod by omega)]
  rw [Nat.mod_eq_of_lt
    (show block_size * queue_depth + page_mask + huge_page_mask < u64Mod by omega)]
  rw [mask_round_eq_divCeil]
  have hP : rustDivCeil (block_size * queue_depth + page_mask) huge_page_size * huge_page_size
      ≤ block_size * queue_depth + page_mask + huge_page_mask := by
    rw [rustDivCeil_eq_add_sub_div _ _ (by omega)]
    calc (block_size * queue_depth + page_mask + huge_page_size - 1) / huge_page_size
          * huge_page_size
        ≤ block_size * queue_depth + page_mask + huge_page_size - 1 :=
          Nat.div_mul_le_self _ _
      _ = block_size * queue_depth + page_mask + huge_page_mask := by omega
  rw [Nat.mod_eq_of_lt (show rustDivCeil (block_size * queue_depth + page_mask)
    huge_page_size * huge_page_size + page_mask < u64Mod by omega)]
  rw [Nat.mod_eq_of_lt (show rustDivCeil (block_size * queue_depth + page_mask)
    huge_page_size * huge_page_size + page_mask + huge_page_mask < u64Mod by omega)]
  rw [mask_round_eq_divCeil]

theorem rustDivCeil_hsz_mul (k : Nat) :
    rustDivCeil (huge_page_size * k) huge_page_size = k := by
  have hhs : huge_page_size = 2097152 := rfl
  rw [rustDivCeil, Nat.mul_mod_right, if_pos rfl,
    Nat.mul_div_cancel_left _ (by omega : 0 < huge_page_size)]
  rfl

theorem huge_page_size_dvd_per_job (queue_depth block_size : Nat) :
    huge_page_size ∣ per_job_mem_calc queue_depth block_size := by
  simp only [per_job_mem_calc]
  exact dvd_mul_left _ _

/-- C2 (amended): the huge-page count calculation follows the spec's
two-stage rounding algorithm — per-job memory = block_size × queue_depth,
plus the 4 KiB page mask, rounded up to a 2 MiB boundary, plus the page mask
again, rounded up again, multiplied by job count, divided by 2 MiB rounding
up — whenever the u64 arithmetic does not wrap (for all inputs it is false:
the multiplication by job count can wrap, see the counterexample), and
satisfies calc(128, 32 KiB, 6) = 24, calc(8, 32 KiB, 1) = 2,
calc(8, 4 KiB, 1) = 2, calc(128, 16 MiB, 1) = 1026 and
calc(128, 16 MiB, 6) = 1026 · 6. -/
theorem claim_C2_hugepage_algorithm :
    (∀ queue_depth block_size jobcount : Nat,
      block_size * queue_depth + 2 * (page_mask + huge_page_mask) < u64Mod →
      jobcount * per_job_mem_spec queue_depth block_size < u64Mod →
      calculate_nr_hugepages_int queue_depth block_size jobcount
        = Except.ok (hugepage_count_spec queue_depth block_size jobcount))
    ∧ calculate_nr_hugepages_int 128 (32 * 2 ^ 10) 6 = Except.ok 24
    ∧ calculate_nr_hugepages_int 8 (32 * 2 ^ 10) 1 = Except.ok 2
    ∧ calculate_nr_hugepages_int 8 (4 * 2 ^ 10) 1 = Except.ok 2
    ∧ calculate_nr_hugepages_int 128 (16 * 2 ^ 20) 1 = Except.ok 1026
    ∧ calculate_nr_hugepages_int 128 (16 * 2 ^ 20) 6 = Except.ok (1026 * 6) := by
  refine ⟨?_, rfl, rfl, rfl, rfl, rfl⟩
  intro qd bs jc h1 h2
  simp only [calculate_nr_hugepages_int, hugepage_count_spec]
  rw [per_job_mem_calc_eq_spec qd bs h1, Nat.mod_eq_of_lt h2]

theorem claim_C2_hugepage_algorithm_witness :
    (32768 * 128 + 2 * (page_mask + huge_page_mask) < u64Mod
      ∧ 6 * per_job_mem_spec 128 32768 < u64Mod)
    ∧ calculate_nr_hugepages_int 128 32768 6
        = Except.ok (hugepage_count_spec 128 32768 6) :=
  ⟨⟨by decide, by decide⟩,
    claim_C2_hugepage_algorithm.1 128 32768 6 (by decide) (by decide)⟩

/-- C2 counterexample: the code does not follow the spec's two-stage rounding
algorithm on ALL inputs — at queue_depth = 2, block_size = 2^62, jobcount = 2
the source's u64 multiplication `jobcount * per_job_mem` wraps around 2^64
(src/src/main.rs:693) and the code yields 4 pages, while the spec's algorithm
read over ideal arithmetic yields 8796093022212. -/
theorem claim_C2_hugepage_algorithm_counterexample :
    calculate_nr_hugepages_int 2 (2 ^ 62) 2 = Except.ok 4
    ∧ hugepage_count_spec 2 (2 ^ 62) 2 = 8796093022212
    ∧ (4 : Nat) ≠ 8796093022212 :=
  ⟨rfl, by decide, by decide⟩

/-- C6 counterexample: the huge-page count is not linear in job count on all
u64 inputs — at queue_depth = 2, block_size = 2^62, the multiplication
`jobcount * per_job_mem` wraps around 2^64 for jobcount = 2, giving 4 pages
instead of 2 · 4398046511106. -/
theorem claim_C6_linearity_counterexample :
    calculate_nr_hugepages_int 2 (2 ^ 62) 2 = Except.ok 4
    ∧ calculate_nr_hugepages_int 2 (2 ^ 62) 1 = Except.ok 4398046511106
    ∧ (4 : Nat) ≠ 2 * 4398046511106 :=
  ⟨rfl, rfl, by decide⟩

/-- C6 (amended): the huge-page count calculation is linear in job count
whenever the multiplication `jobcount * per_job_mem` does not overflow u64:
calc(queue_depth, block_size, jobcount) = jobcount · calc(queue_depth,
block_size, 1). -/
theorem claim_C6_linearity :
    ∀ queue_depth block_size jobcount : Nat,
      jobcount * per_job_mem_calc queue_depth block_size < u64Mod →
      calculate_nr_hugepages_int queue_depth block_size jobcount
        = Except.map (fun v => jobcount * v)
            (calculate_nr_hugepages_int queue_depth block_size 1) := by
  intro qd bs jc h
  obtain ⟨k, hk⟩ := huge_page_size_dvd_per_job qd bs
  have hlt : huge_page_size * k < u64Mod := by
    have := per_job_mem_calc_lt qd bs
    rwa [hk] at this
  have h2 : jc * (huge_page_size * k) < u64Mod := by rwa [hk] at h
  have e : jc * (huge_page_size * k) = huge_page_size * (jc * k) := by ring
  simp only [calculate_nr_hugepages_int, Except.map, hk]
  rw [Nat.one_mul, Nat.mod_eq_of_lt hlt, rustDivCeil_hsz_mul, e,
    Nat.mod_eq_of_lt (e ▸ h2), rustDivCeil_hsz_mul]

theorem claim_C6_linearity_witness :
    3 * per_job_mem_calc 8 32768 < u64Mod
    ∧ calculate_nr_hugepages_int 8 32768 3
        = Except.map (fun v => 3 * v) (calculate_nr_hugepages_int 8 32768 1) :=
  ⟨by decide, claim_C6_linearity 8 32768 3 (by decide)⟩

/-- The two-axis example configuration of the spec's §8 huge-page property:
block_sizes = {512B, 16MiB}, queue_depths = {1, 128}, jobcounts = {1}. -/
def maxAxesCfg : Config :=
  { Config.default with
    block_sizes := ["512", "16MiB"], queue_depths := [1, 128], jobcounts := [1] }

/-- The corresponding single-point configuration (16MiB, 128, 1). -/
def maxPointCfg : Config :=
  { Config.default with
    block_sizes := ["16MiB"], queue_depths := [128], jobcounts := [1] }

/-- C5: the sweep-wide huge-page requirement equals the per-point calculation
taken at the maximum block size, maximum queue depth, and maximum job count,
each over its own axis independently; in particular the axes
block_sizes = {512B, 16MiB}, queue_depths = {1, 128}, jobcounts = {1} give
the same count as the single point (16MiB, 128, 1). -/
theorem claim_C5_sweep_maxima :
    (∀ (cfg : Config) (jcm bsm qdm : Nat) (parsed : List Nat),
      cfg.jobcounts.max? = some jcm →
      cfg.block_sizes.mapM parse_str = some parsed →
      parsed.max? = some bsm →
      cfg.queue_depths.max? = some qdm →
      calculate_nr_hugepages cfg = calculate_nr_hugepages_int qdm bsm jcm)
    ∧ calculate_nr_hugepages maxAxesCfg = calculate_nr_hugepages maxPointCfg
    ∧ calculate_nr_hugepages maxAxesCfg = Except.ok 1026 := by
  refine ⟨?_, rfl, rfl⟩
  intro cfg jcm bsm qdm parsed h1 h2 h3 h4
  simp only [calculate_nr_hugepages, h1, h2, h3, h4]

theorem claim_C5_sweep_maxima_witness :
    (maxAxesCfg.jobcounts.max? = some 1
      ∧ maxAxesCfg.block_sizes.mapM parse_str = some [512, 16777216]
      ∧ ([512, 16777216] : List Nat).max? = some 16777216
      ∧ maxAxesCfg.queue_depths.max? = some 128)
    ∧ calculate_nr_hugepages maxAxesCfg = calculate_nr_hugepages_int 128 16777216 1 :=
  ⟨⟨rfl, rfl, rfl, rfl⟩,
    claim_C5_sweep_maxima.1 maxAxesCfg 1 16777216 128 [512, 16777216] rfl rfl rfl rfl⟩

/-- C10: the sweep-wide huge-page requirement computation is total over empty
axes: if any of jobcounts, block_sizes, or queue_depths is empty it returns a
typed error rather than a count. -/
theorem claim_C10_empty_axes_error :
    ∀ cfg : Config,
      cfg.jobcounts = [] ∨ cfg.block_sizes = [] ∨ cfg.queue_depths = [] →
      ∃ e, calculate_nr_hugepages cfg = Except.error e := by
  intro cfg h
  simp only [calculate_nr_hugepages]
  split
  · exact ⟨_, rfl⟩
  split
  · exact ⟨_, rfl⟩
  split
  · exact ⟨_, rfl⟩
  split
  · exact ⟨_, rfl⟩
  exfalso
  rcases h with h | h | h <;> simp_all [List.mapM.loop]

theorem claim_C10_empty_axes_error_witness :
    (({ Config.default with jobcounts := ([] : List Nat) } : Config).jobcounts = []
      ∨ ({ Config.default with jobcounts := ([] : List Nat) } : Config).block_sizes = []
      ∨ ({ Config.default with jobcounts := ([] : List Nat) } : Config).queue_depths = [])
    ∧ ∃ e, calculate_nr_hugepages { Config.default with jobcounts := ([] : List Nat) }
        = Except.error e :=
  ⟨Or.inl rfl, claim_C10_empty_axes_error _ (Or.inl rfl)⟩

/-- Observable side effects of the engine on the host: process spawns (with
their stream redirections), sleeps, control-file writes, directory creation,
the simulated-device teardown (removal of every subdirectory under the nullb
control root, src/src/main.rs:560-568, abstracted as one event), the per-point
start log line, remote log pushes, and the post-sweep archive steps. -/
inductive Event
  | spawn (prog : String) (args : List String) (stdoutRedir stderrRedir : Option String)
  | sleep
  | writeFile (path value : String)
  | createDir (path : String)
  | removeCnullDirs
  | testStart (block_size : String) (jobcount : Nat) (workload : String) (queue_depth : Nat)
  | pushLog
  | compressBatch
  | uploadArchive
deriving DecidableEq, Repr

/-- The running state of the model: how many processes have been spawned so
far (used to index the environment's per-spawn outcomes) and the event trace
accumulated so far. -/
structure RunState where
  spawnIdx : Nat
  trace : List Event
deriving DecidableEq, Repr

/-- The initial state: no spawns, empty trace. -/
def initState : RunState := ⟨0, []⟩

/-- The effect monad of the model: state (spawn counter and trace) plus
failure.  A failing step keeps the events it already produced. -/
def M (α : Type) : Type := RunState → RunState × Except Err α

instance : Monad M where
  pure a := fun s => (s, Except.ok a)
  bind x f := fun s =>
    match x s with
    | (s', Except.ok a) => f a s'
    | (s', Except.error e) => (s', Except.error e)

/-- Unfolding lemma for the monad's bind. -/
theorem M_bind_def {α β : Type} (x : M α) (f : α → M β) (s : RunState) :
    (x >>= f) s = match x s with
      | (s', Except.ok a) => f a s'
      | (s', Except.error e) => (s', Except.error e) := rfl

/-- The environment oracle: outcome of the i-th process spawn, success of
control-file writes, directory creation and removal, of remote log pushes,
whether the kernel honors a requested huge-page count, and the per-policy
cpufreq scaling files discovered by the `amd_pstate_fixed_3ghz` glob. -/
structure Env where
  procResult : Nat → Except Nat Unit
  writeOk : String → String → Bool
  createDirOk : String → Bool
  removeOk : Bool
  pushLogOk : Bool
  hugepagesHonored : Nat → Bool
  scalingPolicies : List String

/-- The all-success environment. -/
def Env.allOk : Env :=
  ⟨fun _ => Except.ok (), fun _ _ => true, fun _ => true, true, true, fun _ => true, []⟩

/-- Record an event. -/
def emit (e : Event) : M Unit :=
  fun s => ({ s with trace := s.trace ++ [e] }, Except.ok ())

/-- Fail with an error. -/
def Mthrow {α : Type} (e : Err) : M α := fun s => (s, Except.error e)

/-- `anyhow::Context::context` on a result: wrap a failure with a message. -/
def withContext {α : Type} (msg : String) (x : M α) : M α := fun s =>
  match x s with
  | (s', Except.error e) => (s', Except.error (Err.ctx msg e))
  | r => r

/-- `let _ = ...`: run, keep the side effects, discard the result
(the best-effort pre-sweep cleanups of src/src/main.rs:231-234). -/
def ignoreResult {α : Type} (x : M α) : M Unit :=
  fun s => ((x s).1, Except.ok ())

/-- Run a step and reify its outcome as a value (the `let status = ...`
of src/src/main.rs:66). -/
def tryStatus {α : Type} (x : M α) : M (Except Err α) :=
  fun s => ((x s).1, Except.ok (x s).2)

/-- Spawn a process and wait: records the spawn event with its stream
redirections and returns the exit outcome assigned by the environment to
this spawn (by spawn sequence number). -/
def spawnRaw (env : Env) (prog : String) (args : List String)
    (so se : Option String) : M (Except Nat Unit) := fun s =>
  ({ spawnIdx := s.spawnIdx + 1, trace := s.trace ++ [Event.spawn prog args so se] },
    Except.ok (env.procResult s.spawnIdx))

/-- `CheckExitCode::check_status`, src/src/command.rs:93-101: a non-success
exit becomes a typed "process failed" error carrying the exit code. -/
def check_status (r : Except Nat Unit) : M Unit :=
  match r with
  | Except.ok _ => pure ()
  | Except.error code => Mthrow (Err.procFailed code)

/-- Spawn, wait, and check the exit status. -/
def spawnChecked (env : Env) (prog : String) (args : List String)
    (so se : Option String) : M Unit := do
  let r ← spawnRaw env prog args so se
  check_status r

/-- Open a control file for writing and write a value
(the `File::options().write(true).open(p)` / `write_all` pattern of
src/src/main.rs); failure of either step is one write failure. -/
def write_file (env : Env) (path value : String) : M Unit := do
  emit (Event.writeFile path value)
  if env.writeOk path value then pure () else Mthrow (Err.writeFailed path)

/-- `std::fs::create_dir`. -/
def create_dir (env : Env) (path : String) : M Unit := do
  emit (Event.createDir path)
  if env.createDirOk path then pure () else Mthrow (Err.createDirFailed path)

/-- The command builder `Command`, src/src/command.rs:5-44, with the
redirections it will hand to the spawned child. -/
structure Command where
  prog : String
  args : List String
  stdoutRedir : Option String := none
  stderrRedir : Option String := none
deriving DecidableEq, Repr

/-- `Command::new`, src/src/command.rs:10-14. -/
def Command.new (prog : String) : Command := { prog := prog, args := [] }

/-- `Command::arg`, src/src/command.rs:21-24. -/
def Command.arg (c : Command) (a : String) : Command := { c with args := c.args ++ [a] }

/-- `Command::args`, src/src/command.rs:26-33. -/
def Command.addArgs (c : Command) (as : List String) : Command :=
  { c with args := c.args ++ as }

/-- `Command::stdout`, src/src/command.rs:35-38: redirect the child's
standard output. -/
def Command.stdout (c : Command) (f : String) : Command :=
  { c with stdoutRedir := some f }

/-- `Command::stderr`, src/src/command.rs:40-43.  The source body forwards to
`self.command.stdout(cfg)` — not `stderr` — so this call replaces the child's
standard-output redirection and the child's standard error is left alone.
The embedding reproduces that behavior. -/
def Command.stderr (c : Command) (f : String) : Command :=
  { c with stdoutRedir := some f }

/-- Spawn a built command, wait, and check its exit status. -/
def Command.spawnCheckedM (env : Env) (c : Command) : M Unit :=
  spawnChecked env c.prog c.args c.stdoutRedir c.stderrRedir

/-- The retry loop of `SpawnRetry::spawn_retry`, src/src/command.rs:64-82,
recursing on the number of attempts still allowed: try once; on success stop;
on failure either return the error (when this was the last attempt — the
source's `retry_cnt == retry_max` check) or sleep the fixed delay and retry.
The zero case mirrors the `unreachable!()` after the source's loop and is
never reached from `spawn_retry`. -/
def spawn_retry_go (env : Env) (prog : String) (args : List String) :
    Nat → M Unit
  | 0 => Mthrow Err.unreachableLoopExit
  | n + 1 => do
      let r ← spawnRaw env prog args none none
      match r with
      | Except.ok _ => pure ()
      | Except.error code =>
          if n = 0 then Mthrow (Err.procFailed code)
          else do
            emit Event.sleep
            spawn_retry_go env prog args n

/-- `SpawnRetry::spawn_retry`, src/src/command.rs:54-86: zero max attempts is
an invalid-argument error before any spawn; otherwise run the retry loop. -/
def spawn_retry (env : Env) (prog : String) (args : List String)
    (retry_max : Nat) : M Unit :=
  if retry_max = 0 then Mthrow Err.invalidRetryCount
  else spawn_retry_go env prog args retry_max

/-- A standalone run of `spawn_retry` from the initial state: the event trace
and the result, with the i-th spawn attempt's outcome given by `outcome i`. -/
def spawn_retry_run (outcome : Nat → Except Nat Unit) (prog : String)
    (args : List String) (retry_max : Nat) : List Event × Except Err Unit :=
  let r := spawn_retry { Env.allOk with procResult := outcome } prog args retry_max initState
  (r.1.trace, r.2)

/-- The trace of a run whose every attempt fails: n + 1 spawns with a sleep
after each but the last. -/
def retryFailTrace (prog : String) (args : List String) : Nat → List Event
  | 0 => []
  | n + 1 => Event.spawn prog args none none ::
      (if n = 0 then [] else Event.sleep :: retryFailTrace prog args n)

/-- The trace of a run whose first k attempts fail and whose next attempt
succeeds: k + 1 spawns with a sleep after each but the last. -/
def retrySuccTrace (prog : String) (args : List String) : Nat → List Event
  | 0 => [Event.spawn prog args none none]
  | k + 1 => Event.spawn prog args none none :: Event.sleep ::
      retrySuccTrace prog args k

/-- Number of spawn events in a trace. -/
def countSpawns (tr : List Event) : Nat :=
  tr.countP fun e => match e with
    | Event.spawn _ _ _ _ => true
    | _ => false

/-- Number of sleep events in a trace. -/
def countSleeps (tr : List Event) : Nat :=
  tr.countP fun e => match e with
    | Event.sleep => true
    | _ => false

theorem spawn_retry_go_one (env : Env) (prog : String) (args : List String)
    (s : RunState) :
    spawn_retry_go env prog args 1 s
      = check_status (env.procResult s.spawnIdx)
          ⟨s.spawnIdx + 1, s.trace ++ [Event.spawn prog args none none]⟩ := rfl

theorem spawn_retry_go_two_plus (env : Env) (prog : String) (args : List String)
    (m : Nat) (s : RunState) :
    spawn_retry_go env prog args (m + 2) s
      = (match env.procResult s.spawnIdx with
          | Except.ok _ => pure ()
          | Except.error _ => do
              emit Event.sleep
              spawn_retry_go env prog args (m + 1))
          ⟨s.spawnIdx + 1, s.trace ++ [Event.spawn prog args none none]⟩ := rfl

theorem spawn_retry_go_fail (env : Env) (prog : String) (args : List String)
    (errs : Nat → Nat) (h : ∀ i, env.procResult i = Except.error (errs i)) :
    ∀ (n : Nat) (s : RunState),
      spawn_retry_go env prog args (n + 1) s
        = (⟨s.spawnIdx + (n + 1), s.trace ++ retryFailTrace prog args (n + 1)⟩,
            Except.error (Err.procFailed (errs (s.spawnIdx + n)))) := by
  intro n
  induction n with
  | zero =>
      intro s
      rw [spawn_retry_go_one, h]
      rfl
  | succ m ih =>
      intro s
      rw [spawn_retry_go_two_plus, h]
      show spawn_retry_go env prog args (m + 1)
          ⟨s.spawnIdx + 1, s.trace ++ [Event.spawn prog args none none]
            ++ [Event.sleep]⟩ = _
      rw [ih]
      have e : s.spawnIdx + 1 + m = s.spawnIdx + (m + 1) := by omega
      rw [e]
      simp [retryFailTrace]
      omega

theorem spawn_retry_go_succ (env : Env) (prog : String) (args : List String) :
    ∀ (k n : Nat) (s : RunState),
      k < n →
      env.procResult (s.spawnIdx + k) = Except.ok () →
      (∀ i, i < k → ∃ c, env.procResult (s.spawnIdx + i) = Except.error c) →
      spawn_retry_go env prog args n s
        = (⟨s.spawnIdx + k + 1, s.trace ++ retrySuccTrace prog args k⟩,
            Except.ok ()) := by
  intro k
  induction k with
  | zero =>
      intro n s hk hok _
      obtain ⟨m, rfl⟩ : ∃ m, n = m + 1 := ⟨n - 1, by omega⟩
      simp only [Nat.add_zero] at hok
      match m with
      | 0 =>
          rw [spawn_retry_go_one, hok]
          rfl
      | m' + 1 =>
          rw [spawn_retry_go_two_plus, hok]
          rfl
  | succ j ih =>
      intro n s hk hok hfail
      obtain ⟨c, hc⟩ := hfail 0 (by omega)
      simp only [Nat.add_zero] at hc
      obtain ⟨m, rfl⟩ : ∃ m, n = (m + 1) + 1 := ⟨n - 2, by omega⟩
      rw [spawn_retry_go_two_plus, hc]
      have hok' : env.procResult (s.spawnIdx + 1 + j) = Except.ok () := by
        rw [show s.spawnIdx + 1 + j = s.spawnIdx + (j + 1) by omega]
        exact hok
      have hfail' : ∀ i, i < j → ∃ c', env.procResult (s.spawnIdx + 1 + i)
          = Except.error c' := by
        intro i hi
        obtain ⟨c', hc'⟩ := hfail (i + 1) (by omega)
        refine ⟨c', ?_⟩
        rw [show s.spawnIdx + 1 + i = s.spawnIdx + (i + 1) by omega]
        exact hc'
      show spawn_retry_go env prog args (m + 1)
          ⟨s.spawnIdx + 1, s.trace ++ [Event.spawn prog args none none]
            ++ [Event.sleep]⟩ = _
      rw [ih (m + 1) ⟨s.spawnIdx + 1, s.trace ++ [Event.spawn prog args none none]
            ++ [Event.sleep]⟩ (by omega) hok' hfail']
      simp [retrySuccTrace]
      omega

theorem countSpawns_failTrace (prog : String) (args : List String) :
    ∀ n, countSpawns (retryFailTrace prog args (n + 1)) = n + 1 := by
  intro n
  induction n with
  | zero => rfl
  | succ m ih => simp [retryFailTrace, countSpawns, List.countP_cons] at ih ⊢; omega

theorem countSleeps_failTrace (prog : String) (args : List String) :
    ∀ n, countSleeps (retryFailTrace prog args (n + 1)) = n := by
  intro n
  induction n with
  | zero => rfl
  | succ m ih => simp [retryFailTrace, countSleeps, List.countP_cons] at ih ⊢; omega

theorem countSpawns_succTrace (prog : String) (args : List String) :
    ∀ n, countSpawns (retrySuccTrace prog args n) = n + 1 := by
  intro n
  induction n with
  | zero => rfl
  | succ m ih => simp [retrySuccTrace, countSpawns, List.countP_cons] at ih ⊢; omega

/-- C3: `spawn_retry` with max_attempts = 0 returns the invalid-argument
error with no spawn attempted; with max_attempts = n + 1 and a process
failing on every attempt it spawns exactly n + 1 times, sleeps the fixed
delay only between attempts (n sleeps, none after the last), and returns the
last attempt's error; a success on any attempt short-circuits with k + 1
spawns when the first k attempts failed. -/
theorem claim_C3_run_with_retry :
    (∀ (outcome : Nat → Except Nat Unit) (prog : String) (args : List String),
      spawn_retry_run outcome prog args 0 = ([], Except.error Err.invalidRetryCount))
    ∧ (∀ (outcome : Nat → Except Nat Unit) (errs : Nat → Nat) (prog : String)
        (args : List String) (n : Nat),
      (∀ i, outcome i = Except.error (errs i)) →
      spawn_retry_run outcome prog args (n + 1)
        = (retryFailTrace prog args (n + 1), Except.error (Err.procFailed (errs n))))
    ∧ (∀ (outcome : Nat → Except Nat Unit) (prog : String) (args : List String)
        (k n : Nat),
      k < n →
      outcome k = Except.ok () →
      (∀ i, i < k → ∃ c, outcome i = Except.error c) →
      spawn_retry_run outcome prog args n = (retrySuccTrace prog args k, Except.ok ()))
    ∧ (∀ (prog : String) (args : List String) (n : Nat),
      countSpawns (retryFailTrace prog args (n + 1)) = n + 1
      ∧ countSleeps (retryFailTrace prog args (n + 1)) = n
      ∧ countSpawns (retrySuccTrace prog args n) = n + 1) := by
  refine ⟨fun outcome prog args => rfl, ?_, ?_, ?_⟩
  · intro outcome errs prog args n h
    have henv : ∀ i, ({ Env.allOk with procResult := outcome } : Env).procResult i
        = Except.error (errs i) := h
    simp only [spawn_retry_run, spawn_retry, if_neg (Nat.succ_ne_zero n)]
    rw [spawn_retry_go_fail _ prog args errs henv n initState]
    simp [initState]
  · intro outcome prog args k n hk hok hfail
    have hok' : ({ Env.allOk with procResult := outcome } : Env).procResult
        (initState.spawnIdx + k) = Except.ok () := by
      simpa [initState] using hok
    have hfail' : ∀ i, i < k →
        ∃ c, ({ Env.allOk with procResult := outcome } : Env).procResult
          (initState.spawnIdx + i) = Except.error c := by
      intro i hi
      obtain ⟨c, hc⟩ := hfail i hi
      exact ⟨c, by simpa [initState] using hc⟩
    simp only [spawn_retry_run, spawn_retry, if_neg (by omega : ¬ n = 0)]
    rw [spawn_retry_go_succ { Env.allOk with procResult := outcome } prog args k n
      initState hk hok' hfail']
    simp [initState]
  · intro prog args n
    exact ⟨countSpawns_failTrace prog args n, countSleeps_failTrace prog args n,
      countSpawns_succTrace prog args n⟩

theorem claim_C3_run_with_retry_witness :
    ((∀ i, (fun i => (Except.error i : Except Nat Unit)) i = Except.error i)
      ∧ (1 : Nat) < 3
      ∧ (fun i => if i = 1 then Except.ok () else (Except.error 7 : Except Nat Unit)) 1
          = Except.ok ()
      ∧ (∀ i, i < 1 → ∃ c, (fun i => if i = 1 then Except.ok ()
          else (Except.error 7 : Except Nat Unit)) i = Except.error c))
    ∧ spawn_retry_run (fun i => Except.error i) "rmmod" ["mod"] 3
        = (retryFailTrace "rmmod" ["mod"] 3, Except.error (Err.procFailed 2))
    ∧ spawn_retry_run (fun i => if i = 1 then Except.ok () else Except.error 7)
        "modprobe" ["-r", "mod"] 3
        = (retrySuccTrace "modprobe" ["-r", "mod"] 1, Except.ok ()) :=
  ⟨⟨fun i => rfl, by decide, rfl, fun i hi => ⟨7, by (interval_cases i; rfl)⟩⟩,
    claim_C3_run_with_retry.2.1 (fun i => Except.error i) (fun i => i) "rmmod" ["mod"] 2
      (fun i => rfl),
    claim_C3_run_with_retry.2.2.1 (fun i => if i = 1 then Except.ok () else Except.error 7)
      "modprobe" ["-r", "mod"] 1 3 (by decide) rfl
      (fun i hi => ⟨7, by (interval_cases i; rfl)⟩)⟩

/-- `load_module`, src/src/main.rs:481-504: insert the configured module via
insmod and/or modprobe (plain spawns with status check). -/
def load_module (cfg : Config) (env : Env) : M Unit :=
  match cfg.module with
  | none => pure ()
  | some m =>
      (if cfg.insmod then
        spawnChecked env "insmod" (m :: cfg.module_args) none none
      else pure ()) >>= fun _ =>
      (if cfg.modprobe then
        spawnChecked env "modprobe" (m :: cfg.module_args) none none
      else pure ())

/-- `unload_module`, src/src/main.rs:506-524: remove the configured module via
rmmod and/or `modprobe -r`, each with 3 retry attempts and a 1 s delay. -/
def unload_module (cfg : Config) (env : Env) : M Unit :=
  match cfg.module with
  | none => pure ()
  | some m =>
      (if cfg.insmod then
        spawn_retry env "rmmod" [m] 3
      else pure ()) >>= fun _ =>
      (if cfg.modprobe then
        spawn_retry env "modprobe" ["-r", m] 3
      else pure ())

/-- The nullb control-filesystem root of `setup_cnull`/`teardown_cnull`,
src/src/main.rs:528, 561. -/
def nullbRoot : String := "/sys/kernel/config/nullb"

/-- `setup_cnull`, src/src/main.rs:526-558: create the device's control
directory and write the fixed sequence of control files, `power` last. -/
def setup_cnull (env : Env) (name : String) : M Unit := do
  let control_path := nullbRoot ++ "/" ++ name
  withContext "create debugfs folder" (create_dir env control_path)
  let write_control_file := fun (n v : String) =>
    write_file env (control_path ++ "/" ++ n) v
  withContext "blocksize" (write_control_file "blocksize" "4096")
  withContext "completion_nsec" (write_control_file "completion_nsec" "0")
  withContext "irqmode" (write_control_file "irqmode" "0")
  withContext "queue_mode" (write_control_file "queue_mode" "2")
  withContext "hw_queue_depth" (write_control_file "hw_queue_depth" "256")
  withContext "memory_backed" (write_control_file "memory_backed" "1")
  withContext "size" (write_control_file "size" "4096")
  withContext "poll_queues" (write_control_file "poll_queues" "0")
  withContext "power" (write_control_file "power" "1")

/-- `teardown_cnull`, src/src/main.rs:560-568: remove every subdirectory
under the nullb control root.  The directory walk is abstracted as one
removal event; failure is decided by the environment. -/
def teardown_cnull (env : Env) : M Unit := do
  emit Event.removeCnullDirs
  if env.removeOk then pure () else Mthrow Err.removeDirFailed

/-- `set_block_scheduler`, src/src/main.rs:570-580. -/
def set_block_scheduler (env : Env) (device : String) : M Unit :=
  write_file env ("/sys/block/" ++ device ++ "/queue/scheduler") "none"

/-- `disable_iostats`, src/src/main.rs:582-592. -/
def disable_iostats (env : Env) (device : String) : M Unit :=
  write_file env ("/sys/block/" ++ device ++ "/queue/iostats") "0"

/-- `set_governor`, src/src/main.rs:594-604. -/
def set_governor (env : Env) : M Unit :=
  withContext "Failed to set cpu frequency governor"
    (spawnChecked env "cpupower" ["frequency-set", "-g", "performance"] none none)

/-- `disable_boost_amd`, src/src/main.rs:616-620. -/
def disable_boost_amd (env : Env) : M Unit :=
  write_file env "/sys/devices/system/cpu/cpufreq/boost" "0\n"

/-- `disable_turbo_intel`, src/src/main.rs:622-628. -/
def disable_turbo_intel (env : Env) : M Unit :=
  withContext "Failed to disable turbo boost"
    (write_file env "/sys/devices/system/cpu/intel_pstate/no_turbo" "1\n")

/-- `amd_pstate_fixed_3ghz`, src/src/main.rs:606-614: status to "guided",
performance governor, AMD boost off, then a fixed max frequency into every
per-policy scaling file the glob discovers (given by the environment). -/
def amd_pstate_fixed_3ghz (env : Env) : M Unit := do
  write_file env "/sys/devices/system/cpu/amd_pstate/status" "guided"
  set_governor env
  disable_boost_amd env
  env.scalingPolicies.forM fun p => write_file env p "3000000\n"

/-- `set_nr_hugepages`, src/src/main.rs:630-644: write the count, read it
back, and fail when the kernel did not honor the request. -/
def set_nr_hugepages (env : Env) (nr : Nat) : M Unit := do
  withContext "Failed to set number of hugepages"
    (write_file env "/proc/sys/vm/nr_hugepages" (toString nr ++ "\n"))
  if env.hugepagesHonored nr then pure ()
  else Mthrow (Err.msg "Failed to set number of huge pages")

/-- `setup`, src/src/main.rs:454-467: per-point setup — module load under the
"Always" policy, simulated-device configuration when requested, then block
scheduler and iostats tuning, each with its context. -/
def setup (cfg : Config) (env : Env) : M Unit :=
  (match cfg.module_reload_policy with
  | ModuleReloadPolicy.Always =>
      withContext "Load module always" (load_module cfg env)
  | ModuleReloadPolicy.Once => pure ()) >>= fun _ =>
  (if cfg.configure_c_nullblk then
    withContext "setup cnull" (setup_cnull env cfg.device)
  else pure ()) >>= fun _ =>
  withContext "Set block scheduler" (set_block_scheduler env cfg.device) >>= fun _ =>
  withContext "Disable iostats" (disable_iostats env cfg.device)

/-- `teardown`, src/src/main.rs:469-479: per-point teardown — simulated
device removal when configured, then module unload under "Always". -/
def teardown (cfg : Config) (env : Env) : M Unit :=
  (if cfg.configure_c_nullblk then
    teardown_cnull env
  else pure ()) >>= fun _ =>
  (match cfg.module_reload_policy with
  | ModuleReloadPolicy.Always => unload_module cfg env
  | ModuleReloadPolicy.Once => pure ())

/-- `run_single_workload`, src/src/main.rs:303-452: optional prep pass, then
the measurement pass with the argument list built from the SweepPoint and the
configuration.  Notes kept from the source: the capture-path `Option`s are
unwrapped (all call sites pass a run directory exactly when capture is on;
the embedding defaults to "" instead of panicking); the remote-endpoint
branch differs from the plain branch only by the periodic liveness ping of a
1 s poll loop (real-time behavior, not modeled) and checks the exit status
with the same context, so both branches are embedded as one spawn. -/
def run_single_workload (cfg : Config) (env : Env) (output_dir_path : Option String)
    (queue_depth : Nat) (block_size : String) (jobcount : Nat)
    (workload : String) : M Unit :=
  let run_output_id := "j" ++ toString jobcount ++ "-r" ++ toString cfg.runtime
      ++ "-w" ++ workload ++ "-bs" ++ block_size ++ "-qd" ++ toString queue_depth
  let run_file_path := fun (name : String) =>
    output_dir_path.map fun v => v ++ "/" ++ run_output_id ++ name
  (if cfg.prep then
    let prep_stdout_path := run_file_path "-prep.stdout"
    let prep_stderr_path := run_file_path "-prep.stderr"
    let command := ((((Command.new cfg.fio).arg
        "--name=prep").arg "--rw=write").arg "--direct=1").arg "--bs=4k"
    let command := command.arg ("--filename=/dev/" ++ cfg.device)
    let command := if cfg.capture then
        (command.stdout (prep_stdout_path.getD "")).stderr (prep_stderr_path.getD "")
      else command
    withContext "Prep work failed" (command.spawnCheckedM env)
  else pure ()) >>= fun _ =>
  match parse_str block_size with
  | none => Mthrow (Err.parseError block_size)
  | some block_size_bytes =>
    let output_path := run_file_path ".json"
    let stdout_path := run_file_path ".stdout"
    let stderr_path := run_file_path ".stderr"
    let args := [
      "--group_reporting",
      "--name=default",
      "--filename=/dev/" ++ cfg.device,
      "--time_based=1",
      "--runtime=" ++ toString cfg.runtime,
      "--gtod_reduce=1",
      "--clocksource=cpu",
      "--readwrite=" ++ workload,
      "--blocksize=" ++ toString block_size_bytes,
      "--direct=1",
      "--cpus_allowed_policy=split",
      "--cpus_allowed=0-" ++ toString (jobcount - 1),
      "--numjobs=" ++ toString jobcount,
      "--ioengine=io_uring",
      "--iodepth=" ++ toString queue_depth,
      "--fixedbufs=1",
      "--registerfiles=1",
      "--nonvectored=1"]
    let args := if cfg.ramp ≠ 0 then args ++ ["--ramp=" ++ toString cfg.ramp] else args
    let args := if cfg.verify then args ++ ["--do_verify=1", "--verify=md5"]
      else args ++ ["--norandommap", "--random_generator=lfsr"]
    let args := if cfg.capture then
        args ++ ["--output-format=json+", "--output=" ++ output_path.getD ""]
      else args
    let args := if cfg.hipri then args ++ ["--hipri=1"] else args
    let args := if cfg.use_hugepages then
        args ++ ["--iomem=mmaphuge", "--hugepage-size=2m"]
      else args
    let command := (Command.new cfg.fio).addArgs args
    let command := if cfg.capture then
        (command.stdout (stdout_path.getD "")).stderr (stderr_path.getD "")
      else command
    withContext "Fio workload failed" (command.spawnCheckedM env)

/-- The `itertools` cartesian product: left operand outermost. -/
def cartesian_product {α β : Type} (xs : List α) (ys : List β) : List (α × β) :=
  xs.flatMap fun x => ys.map fun y => (x, y)

/-- The `configs` list of `run_workloads`, src/src/main.rs:222-229:
block sizes × job counts × workloads × queue depths, in that nesting. -/
def sweep_configs (cfg : Config) : List (((String × Nat) × String) × Nat) :=
  cartesian_product
    (cartesian_product (cartesian_product cfg.block_sizes cfg.jobcounts) cfg.workloads)
    cfg.queue_depths

/-- The `push_log` closure, src/src/main.rs:58-63: push the in-memory log to
the remote endpoint when one is configured. -/
def push_log_step (cfg : Config) (env : Env) : M Unit :=
  match cfg.remote with
  | none => pure ()
  | some _ => do
      emit Event.pushLog
      if env.pushLogOk then pure () else Mthrow (Err.msg "push log failed")

/-- The inner point loop of `run_workloads`, src/src/main.rs:275-295: for
each SweepPoint in order, log the start, set up, run, tear down — each
wrapped with its context and each aborting the loop on failure via `?` —
then push the log. -/
def run_points (cfg : Config) (env : Env) (run_dir : Option String) :
    List (((String × Nat) × String) × Nat) → M Unit
  | [] => pure ()
  | (((block_size, jobcount), workload), queue_depth) :: rest => do
      emit (Event.testStart block_size jobcount workload queue_depth)
      withContext "Failed to set up module" (setup cfg env)
      withContext "Failed to run test"
        (run_single_workload cfg env run_dir queue_depth block_size jobcount workload)
      withContext "Failed to tear down module" (teardown cfg env)
      push_log_step cfg env
      run_points cfg env run_dir rest

/-- The sample loop of `run_workloads`, src/src/main.rs:268-296, recursing on
the remaining sample count with the current sample index: per sample, create
a run directory when capturing (the source names it by a high-resolution
timestamp; the embedding uses the sample index) and run every point. -/
def run_samples (cfg : Config) (env : Env) (output_dir : Option String)
    (configs : List (((String × Nat) × String) × Nat)) :
    Nat → Nat → M Unit
  | _, 0 => pure ()
  | i, r + 1 =>
      (match output_dir with
        | none => pure none
        | some d =>
            let p := d ++ "/" ++ toString i
            withContext "Failed to get run dir" (create_dir env p) >>= fun _ =>
            pure (some p)) >>= fun run_dir =>
      run_points cfg env run_dir configs >>= fun _ =>
      run_samples cfg env output_dir configs (i + 1) r

/-- `run_workloads`, src/src/main.rs:215-301: best-effort pre-sweep cleanup
(stale nullb teardown when the device is "nullb0", module unload — results
discarded), module load under the "Once" policy, sweep-wide CPU and
huge-page tuning, then the sample × point loop.  Progress-bar calls are
display-only and not modeled. -/
def run_workloads (output_dir : Option String) (cfg : Config) (env : Env) :
    M Unit :=
  let configs := sweep_configs cfg
  (if cfg.device == "nullb0" then
    ignoreResult (teardown_cnull env)
  else pure ()) >>= fun _ =>
  ignoreResult (unload_module cfg env) >>= fun _ =>
  (match cfg.module_reload_policy with
  | ModuleReloadPolicy.Once =>
      withContext "Load module once" (load_module cfg env)
  | ModuleReloadPolicy.Always => pure ()) >>= fun _ =>
  (if cfg.amd_pstate_fixed_3ghz then
    withContext "failed to configure amd-pstate" (amd_pstate_fixed_3ghz env)
  else pure ()) >>= fun _ =>
  (if cfg.cpufreq_governor_performance then
    withContext "failed to set cpu frequency governor" (set_governor env)
  else pure ()) >>= fun _ =>
  (if cfg.disable_boost_amd then
    withContext "failed to disable amd boost" (disable_boost_amd env)
  else pure ()) >>= fun _ =>
  (if cfg.disable_boost_intel then
    withContext "failed to disable intel turbo" (disable_turbo_intel env)
  else pure ()) >>= fun _ =>
  (if cfg.use_hugepages then
    match calculate_nr_hugepages cfg with
    | Except.error e => Mthrow e
    | Except.ok n => set_nr_hugepages env n
  else pure ()) >>= fun _ =>
  run_samples cfg env output_dir configs 0 cfg.samples

/-- `run_test`, src/src/main.rs:44-86: create the batch directory when
capturing (generated name and timestamp abstracted to a fixed name), print
uname, run the workloads keeping the status, push the log, compress and
optionally upload when configured, and return the saved status.  Log-sink
wiring is out of scope; compression and upload are abstracted to events. -/
def run_test (cfg : Config) (env : Env) : M Unit := do
  let output_dir ← if cfg.capture then do
      withContext "failed to create batch dir" (create_dir env "output-batch")
      pure (some "output-batch")
    else pure (none : Option String)
  withContext "`uname` failed" (spawnChecked env "uname" ["-a"] none none)
  let status ← tryStatus (run_workloads output_dir cfg env)
  push_log_step cfg env
  if cfg.capture && cfg.compress then do
    emit Event.compressBatch
    match cfg.remote with
    | some _ => emit Event.uploadArchive
    | none => pure ()
  match status with
  | Except.ok _ => pure ()
  | Except.error e => Mthrow e

/-- `main`, src/src/main.rs:29-42 together with `Config::parse`,
src/src/config.rs:220-251: the configuration is validated before anything
runs; a validation failure aborts with an empty trace (no host mutation).
The final remote shutdown call is an out-of-scope HTTP collaborator. -/
def run_program (cfg : Config) (env : Env) : RunState × Except Err Unit :=
  match config_verify cfg with
  | Except.error e => (initState, Except.error e)
  | Except.ok _ => run_test cfg env initState

/-- The sequence of SweepPoints whose execution was started, read off the
trace (the per-point start log line of src/src/main.rs:276-281). -/
def testStarts (tr : List Event) : List (((String × Nat) × String) × Nat) :=
  tr.filterMap fun e => match e with
    | Event.testStart bs jc wl qd => some (((bs, jc), wl), qd)
    | _ => none

/-- A step that, from every state, succeeds, only appends to the trace, and
appends no `testStart` event. -/
def StartFree (f : M Unit) : Prop :=
  ∀ s : RunState, ∃ idx' tr',
    f s = (⟨idx', s.trace ++ tr'⟩, Except.ok ()) ∧ testStarts tr' = []

theorem startFree_pure : StartFree (pure ()) :=
  fun s => ⟨s.spawnIdx, [], by simp [pure, testStarts], rfl⟩

theorem startFree_bind {x y : M Unit}
    (hx : StartFree x) (hy : StartFree y) : StartFree (x >>= fun _ => y) := by
  intro s
  obtain ⟨i1, t1, hx1, hx2⟩ := hx s
  obtain ⟨i2, t2, hf1, hf2⟩ := hy ⟨i1, s.trace ++ t1⟩
  refine ⟨i2, t1 ++ t2, ?_, ?_⟩
  · rw [M_bind_def, hx1]
    simpa [List.append_assoc] using hf1
  · simp [testStarts, List.filterMap_append] at hx2 hf2 ⊢
    exact ⟨hx2, hf2⟩

theorem startFree_withContext {x : M Unit} (msg : String) (hx : StartFree x) :
    StartFree (withContext msg x) := by
  intro s
  obtain ⟨i1, t1, hx1, hx2⟩ := hx s
  exact ⟨i1, t1, by simp [withContext, hx1], hx2⟩

theorem startFree_ite {x y : M Unit} (c : Bool) (hx : StartFree x)
    (hy : StartFree y) : StartFree (if c then x else y) := by
  cases c
  · simpa using hy
  · simpa using hx

theorem startFree_ignore {α : Type} {x : M α}
    (hx : ∀ s : RunState, ∃ idx' tr' r,
      x s = (⟨idx', s.trace ++ tr'⟩, r) ∧ testStarts tr' = []) :
    StartFree (ignoreResult x) := by
  intro s
  obtain ⟨i1, t1, r, hx1, hx2⟩ := hx s
  exact ⟨i1, t1, by simp [ignoreResult, hx1], hx2⟩

theorem startFree_ignore_ok {x : M Unit} (hx : StartFree x) :
    StartFree (ignoreResult x) := by
  refine startFree_ignore fun s => ?_
  obtain ⟨i1, t1, hx1, hx2⟩ := hx s
  exact ⟨i1, t1, _, hx1, hx2⟩

theorem startFree_emit (e : Event)
    (he : (match e with
      | Event.testStart _ _ _ _ => false
      | _ => true) = true) : StartFree (emit e) := by
  intro s
  refine ⟨s.spawnIdx, [e], rfl, ?_⟩
  cases e <;> first
    | rfl
    | simp at he

theorem startFree_spawnChecked (prog : String) (args : List String)
    (so se : Option String) : StartFree (spawnChecked Env.allOk prog args so se) :=
  fun s => ⟨s.spawnIdx + 1, [Event.spawn prog args so se], rfl, rfl⟩

theorem startFree_spawnCheckedM (c : Command) :
    StartFree (Command.spawnCheckedM Env.allOk c) :=
  fun s => ⟨s.spawnIdx + 1, [Event.spawn c.prog c.args c.stdoutRedir c.stderrRedir],
    rfl, rfl⟩

theorem startFree_write_file (p v : String) : StartFree (write_file Env.allOk p v) :=
  fun s => ⟨s.spawnIdx, [Event.writeFile p v], rfl, rfl⟩

theorem startFree_create_dir (p : String) : StartFree (create_dir Env.allOk p) :=
  fun s => ⟨s.spawnIdx, [Event.createDir p], rfl, rfl⟩

theorem startFree_teardown_cnull : StartFree (teardown_cnull Env.allOk) :=
  fun s => ⟨s.spawnIdx, [Event.removeCnullDirs], rfl, rfl⟩

theorem startFree_spawn_retry (prog : String) (args : List String) (n : Nat) :
    StartFree (spawn_retry Env.allOk prog args (n + 1)) := by
  intro s
  refine ⟨s.spawnIdx + 1, [Event.spawn prog args none none], ?_, rfl⟩
  simp only [spawn_retry, if_neg (Nat.succ_ne_zero n)]
  exact spawn_retry_go_succ Env.allOk prog args 0 (n + 1) s (by omega) rfl
    (by intro i hi; omega)

theorem startFree_load_module (cfg : Config) : StartFree (load_module cfg Env.allOk) := by
  cases hm : cfg.module with
  | none => simpa [load_module, hm] using startFree_pure
  | some m =>
      simp only [load_module, hm]
      exact startFree_bind
        (startFree_ite _ (startFree_spawnChecked _ _ _ _) startFree_pure)
        (startFree_ite _ (startFree_spawnChecked _ _ _ _) startFree_pure)

theorem startFree_unload_module (cfg : Config) :
    StartFree (unload_module cfg Env.allOk) := by
  cases hm : cfg.module with
  | none => simpa [unload_module, hm] using startFree_pure
  | some m =>
      simp only [unload_module, hm]
      exact startFree_bind
        (startFree_ite _ (startFree_spawn_retry _ _ 2) startFree_pure)
        (startFree_ite _ (startFree_spawn_retry _ _ 2) startFree_pure)

theorem startFree_setup_cnull (name : String) :
    StartFree (setup_cnull Env.allOk name) := by
  simp only [setup_cnull]
  repeat
    first
      | exact startFree_withContext _ (startFree_create_dir _)
      | exact startFree_withContext _ (startFree_write_file _ _)
      | refine startFree_bind ?_ ?_

theorem startFree_set_governor : StartFree (set_governor Env.allOk) :=
  startFree_withContext _ (startFree_spawnChecked _ _ _ _)

theorem startFree_disable_boost_amd : StartFree (disable_boost_amd Env.allOk) :=
  startFree_write_file _ _

theorem startFree_disable_turbo_intel : StartFree (disable_turbo_intel Env.allOk) :=
  startFree_withContext _ (startFree_write_file _ _)

theorem startFree_amd_pstate : StartFree (amd_pstate_fixed_3ghz Env.allOk) := by
  simp only [amd_pstate_fixed_3ghz, Env.allOk, List.forM_nil]
  repeat
    first
      | exact startFree_write_file _ _
      | exact startFree_set_governor
      | exact startFree_pure
      | refine startFree_bind ?_ ?_

theorem startFree_set_nr_hugepages (n : Nat) :
    StartFree (set_nr_hugepages Env.allOk n) := by
  simp only [set_nr_hugepages, Env.allOk]
  repeat
    first
      | exact startFree_withContext _ (startFree_write_file _ _)
      | exact startFree_pure
      | refine startFree_ite _ ?_ ?_
      | refine startFree_bind ?_ ?_

theorem startFree_setup (cfg : Config) : StartFree (setup cfg Env.allOk) := by
  simp only [setup]
  refine startFree_bind ?_ (startFree_bind
    (startFree_ite _ (startFree_withContext _ (startFree_setup_cnull _)) startFree_pure)
    (startFree_bind (startFree_withContext _ (startFree_write_file _ _))
      (startFree_withContext _ (startFree_write_file _ _))))
  cases cfg.module_reload_policy
  · exact startFree_withContext _ (startFree_load_module cfg)
  · exact startFree_pure

theorem startFree_teardown (cfg : Config) : StartFree (teardown cfg Env.allOk) := by
  simp only [teardown]
  refine startFree_bind
    (startFree_ite _ startFree_teardown_cnull startFree_pure) ?_
  cases cfg.module_reload_policy
  · exact startFree_unload_module cfg
  · exact startFree_pure

theorem startFree_push_log_step (cfg : Config) :
    StartFree (push_log_step cfg Env.allOk) := by
  cases hr : cfg.remote with
  | none => simpa [push_log_step, hr] using startFree_pure
  | some t =>
      simp only [push_log_step, hr, Env.allOk]
      refine startFree_bind (startFree_emit _ rfl) ?_
      simpa using startFree_pure

theorem testStarts_append (a b : List Event) :
    testStarts (a ++ b) = testStarts a ++ testStarts b :=
  List.filterMap_append a b _

/-- A step that, from every state, succeeds, only appends to the trace, and
whose appended events announce exactly the SweepPoints `L`, in order. -/
def RunsTo (k : M Unit) (L : List (((String × Nat) × String) × Nat)) : Prop :=
  ∀ s : RunState, ∃ idx' tr',
    k s = (⟨idx', s.trace ++ tr'⟩, Except.ok ()) ∧ testStarts tr' = L

theorem runsTo_of_startFree {x : M Unit} (hx : StartFree x) : RunsTo x [] := hx

theorem runsTo_seq {x k : M Unit} {L1 L2 : List (((String × Nat) × String) × Nat)}
    (hx : RunsTo x L1) (hk : RunsTo k L2) : RunsTo (x >>= fun _ => k) (L1 ++ L2) := by
  intro s
  obtain ⟨i1, t1, h1, h2⟩ := hx s
  obtain ⟨i2, t2, k1, k2⟩ := hk ⟨i1, s.trace ++ t1⟩
  refine ⟨i2, t1 ++ t2, ?_, ?_⟩
  · rw [M_bind_def, h1]
    simpa [List.append_assoc] using k1
  · rw [testStarts_append, h2, k2]

theorem runsTo_seq_free {x k : M Unit} {L : List (((String × Nat) × String) × Nat)}
    (hx : StartFree x) (hk : RunsTo k L) : RunsTo (x >>= fun _ => k) L :=
  (List.nil_append L) ▸ runsTo_seq (runsTo_of_startFree hx) hk

theorem runsTo_emit_testStart {k : M Unit} {L : List (((String × Nat) × String) × Nat)}
    (bs : String) (jc : Nat) (wl : String) (qd : Nat) (hk : RunsTo k L) :
    RunsTo (emit (Event.testStart bs jc wl qd) >>= fun _ => k)
      ((((bs, jc), wl), qd) :: L) := by
  intro s
  obtain ⟨i2, t2, k1, k2⟩ := hk ⟨s.spawnIdx, s.trace ++ [Event.testStart bs jc wl qd]⟩
  refine ⟨i2, Event.testStart bs jc wl qd :: t2, ?_, ?_⟩
  · rw [M_bind_def]
    show k ⟨s.spawnIdx, s.trace ++ [Event.testStart bs jc wl qd]⟩ = _
    rw [k1]
    simp
  · simp only [testStarts, List.filterMap_cons] at k2 ⊢
    rw [k2]

theorem runsTo_bind_value {β : Type} {x : M β} {f : β → M Unit} {b : β}
    {L : List (((String × Nat) × String) × Nat)}
    (hx : ∀ s : RunState, ∃ idx' tr',
      x s = (⟨idx', s.trace ++ tr'⟩, Except.ok b) ∧ testStarts tr' = [])
    (hf : RunsTo (f b) L) : RunsTo (x >>= f) L := by
  intro s
  obtain ⟨i1, t1, h1, h2⟩ := hx s
  obtain ⟨i2, t2, k1, k2⟩ := hf ⟨i1, s.trace ++ t1⟩
  refine ⟨i2, t1 ++ t2, ?_, ?_⟩
  · rw [M_bind_def, h1]
    simpa [List.append_assoc] using k1
  · rw [testStarts_append, h2, k2, List.nil_append]

theorem startFree_run_single_workload (cfg : Config) (rd : Option String)
    (qd : Nat) (bs : String) (jc : Nat) (wl : String) (v : Nat)
    (hp : parse_str bs = some v) :
    StartFree (run_single_workload cfg Env.allOk rd qd bs jc wl) := by
  simp only [run_single_workload, hp]
  exact startFree_bind
    (startFree_ite _ (startFree_withContext _ (startFree_spawnCheckedM _)) startFree_pure)
    (startFree_withContext _ (startFree_spawnCheckedM _))

theorem run_points_trace (cfg : Config) (rd : Option String) :
    ∀ points : List (((String × Nat) × String) × Nat),
      (∀ p ∈ points, ∃ v, parse_str p.1.1.1 = some v) →
      RunsTo (run_points cfg Env.allOk rd points) points := by
  intro points
  induction points with
  | nil =>
      intro _
      exact runsTo_of_startFree startFree_pure
  | cons p rest ih =>
      obtain ⟨⟨⟨bs, jc⟩, wl⟩, qd⟩ := p
      intro hp
      obtain ⟨v, hv⟩ := hp (((bs, jc), wl), qd) (by simp)
      show RunsTo (run_points cfg Env.allOk rd ((((bs, jc), wl), qd) :: rest)) _
      simp only [run_points]
      refine runsTo_emit_testStart bs jc wl qd ?_
      refine runsTo_seq_free (startFree_withContext _ (startFree_setup cfg)) ?_
      refine runsTo_seq_free (startFree_withContext _
        (startFree_run_single_workload cfg rd qd bs jc wl v hv)) ?_
      refine runsTo_seq_free (startFree_withContext _ (startFree_teardown cfg)) ?_
      refine runsTo_seq_free (startFree_push_log_step cfg) ?_
      exact ih fun q hq => hp q (List.mem_cons_of_mem _ hq)

theorem flatten_replicate_succ {α : Type} (m : Nat) (l : List α) :
    (List.replicate (m + 1) l).flatten = l ++ (List.replicate m l).flatten := by
  simp [List.replicate_succ]

theorem run_samples_trace (cfg : Config) (output_dir : Option String)
    (configs : List (((String × Nat) × String) × Nat))
    (hp : ∀ p ∈ configs, ∃ v, parse_str p.1.1.1 = some v) :
    ∀ r i : Nat,
      RunsTo (run_samples cfg Env.allOk output_dir configs i r)
        ((List.replicate r configs).flatten) := by
  intro r
  induction r with
  | zero =>
      intro i
      exact runsTo_of_startFree startFree_pure
  | succ m ih =>
      intro i
      simp only [run_samples]
      rw [flatten_replicate_succ]
      cases output_dir with
      | none =>
          refine runsTo_bind_value (b := (none : Option String))
            (fun s => ⟨s.spawnIdx, [], by simp [pure], rfl⟩) ?_
          exact runsTo_seq (run_points_trace cfg none configs hp) (ih (i + 1))
      | some d =>
          refine runsTo_bind_value (b := some (d ++ "/" ++ toString i))
            (fun s => ⟨s.spawnIdx, [Event.createDir (d ++ "/" ++ toString i)], rfl, rfl⟩) ?_
          exact runsTo_seq (run_points_trace cfg _ configs hp) (ih (i + 1))

theorem run_workloads_trace (cfg : Config) (output_dir : Option String)
    (hp : ∀ b ∈ cfg.block_sizes, ∃ v, parse_str b = some v)
    (hh : cfg.use_hugepages = true → ∃ n, calculate_nr_hugepages cfg = Except.ok n) :
    RunsTo (run_workloads output_dir cfg Env.allOk)
      ((List.replicate cfg.samples (sweep_configs cfg)).flatten) := by
  have hp' : ∀ p ∈ sweep_configs cfg, ∃ v, parse_str p.1.1.1 = some v := by
    intro p hmem
    refine hp p.1.1.1 ?_
    simp only [sweep_configs, cartesian_product, List.mem_flatMap, List.mem_map] at hmem
    obtain ⟨x, hx, y, hy, rfl⟩ := hmem
    obtain ⟨x2, hx2, y2, hy2, rfl⟩ := hx
    obtain ⟨x3, hx3, y3, hy3, rfl⟩ := hx2
    exact hx3
  simp only [run_workloads]
  refine runsTo_seq_free (startFree_ite _
    (startFree_ignore_ok startFree_teardown_cnull) startFree_pure) ?_
  refine runsTo_seq_free (startFree_ignore_ok (startFree_unload_module cfg)) ?_
  refine runsTo_seq_free ?_ ?_
  · cases cfg.module_reload_policy
    · exact startFree_pure
    · exact startFree_withContext _ (startFree_load_module cfg)
  refine runsTo_seq_free (startFree_ite _
    (startFree_withContext _ startFree_amd_pstate) startFree_pure) ?_
  refine runsTo_seq_free (startFree_ite _
    (startFree_withContext _ startFree_set_governor) startFree_pure) ?_
  refine runsTo_seq_free (startFree_ite _
    (startFree_withContext _ startFree_disable_boost_amd) startFree_pure) ?_
  refine runsTo_seq_free (startFree_ite _
    (startFree_withContext _ startFree_disable_turbo_intel) startFree_pure) ?_
  refine runsTo_seq_free ?_ (run_samples_trace cfg output_dir (sweep_configs cfg) hp' cfg.samples 0)
  cases hu : cfg.use_hugepages
  · simpa using startFree_pure
  · obtain ⟨n, hn⟩ := hh hu
    simp only [if_pos rfl, hn]
    exact startFree_set_nr_hugepages n

/-- A configuration with two entries on each of the four axes and two
samples. -/
def cfg2222 : Config :=
  { Config.default with
    samples := 2
    block_sizes := ["4k", "8k"]
    jobcounts := [1, 2]
    workloads := ["read", "write"]
    queue_depths := [1, 4]
    device := "nvme0n1" }

/-- C4: SweepPoint enumeration is the cartesian product of the four axes
nested with block sizes outermost, then job counts, then workloads, then
queue depths innermost; the started-point sequence of a sweep is that list
repeated once per sample; for axes of sizes (2,2,2,2) exactly 16 points
appear, in lexicographic nested order, and with samples = 2 the same order
repeats. -/
theorem claim_C4_enumeration :
    (∀ cfg : Config,
      sweep_configs cfg
        = cfg.block_sizes.flatMap fun b =>
            cfg.jobcounts.flatMap fun j =>
              cfg.workloads.flatMap fun w =>
                cfg.queue_depths.map fun q => (((b, j), w), q))
    ∧ (∀ (cfg : Config) (output_dir : Option String),
        (∀ b ∈ cfg.block_sizes, ∃ v, parse_str b = some v) →
        (cfg.use_hugepages = true → ∃ n, calculate_nr_hugepages cfg = Except.ok n) →
        testStarts (run_workloads output_dir cfg Env.allOk initState).1.trace
          = (List.replicate cfg.samples (sweep_configs cfg)).flatten)
    ∧ sweep_configs cfg2222
        = [((("4k", 1), "read"), 1), ((("4k", 1), "read"), 4),
           ((("4k", 1), "write"), 1), ((("4k", 1), "write"), 4),
           ((("4k", 2), "read"), 1), ((("4k", 2), "read"), 4),
           ((("4k", 2), "write"), 1), ((("4k", 2), "write"), 4),
           ((("8k", 1), "read"), 1), ((("8k", 1), "read"), 4),
           ((("8k", 1), "write"), 1), ((("8k", 1), "write"), 4),
           ((("8k", 2), "read"), 1), ((("8k", 2), "read"), 4),
           ((("8k", 2), "write"), 1), ((("8k", 2), "write"), 4)]
    ∧ (sweep_configs cfg2222).length = 16
    ∧ cfg2222.samples = 2 := by
  refine ⟨?_, ?_, by decide, by decide, rfl⟩
  · intro cfg
    simp only [sweep_configs, cartesian_product, List.flatMap_assoc, List.flatMap_map,
      List.map_flatMap]
  · intro cfg output_dir h1 h2
    obtain ⟨idx, tr', heq, hts⟩ := run_workloads_trace cfg output_dir h1 h2 initState
    rw [heq]
    simpa using hts

theorem claim_C4_enumeration_witness :
    ((∀ b ∈ cfg2222.block_sizes, ∃ v, parse_str b = some v)
      ∧ (cfg2222.use_hugepages = true → ∃ n, calculate_nr_hugepages cfg2222 = Except.ok n))
    ∧ testStarts (run_workloads none cfg2222 Env.allOk initState).1.trace
        = (List.replicate cfg2222.samples (sweep_configs cfg2222)).flatten :=
  ⟨⟨by
      intro b hb
      have : b = "4k" ∨ b = "8k" := by simpa [cfg2222, Config.default] using hb
      rcases this with rfl | rfl
      · exact ⟨4096, rfl⟩
      · exact ⟨8192, rfl⟩,
    fun h => absurd h (by decide)⟩,
    claim_C4_enumeration.2.1 cfg2222 none
      (by
        intro b hb
        have : b = "4k" ∨ b = "8k" := by simpa [cfg2222, Config.default] using hb
        rcases this with rfl | rfl
        · exact ⟨4096, rfl⟩
        · exact ⟨8192, rfl⟩)
      (fun h => absurd h (by decide))⟩

/-- True when a path lies under the nullb control-filesystem root. -/
def isNullbPath (p : String) : Bool := nullbRoot.data.isPrefixOf p.data

/-- The control-file writes, directory creations and removals touching the
simulated-device control tree. -/
def nullbEvents (tr : List Event) : List Event :=
  tr.filter fun e => match e with
    | Event.writeFile p _ => isNullbPath p
    | Event.createDir p => isNullbPath p
    | Event.removeCnullDirs => true
    | _ => false

/-- The end-to-end scenario configuration of the spec's §8: samples = 1,
block_sizes = ["4k"], jobcounts = [1], workloads = ["read"],
queue_depths = [1], capture off, no module, simulated device not
configured (all of these are `Config::default` values except samples and
the device name). -/
def cfgC7 : Config :=
  { Config.default with samples := 1, device := "nvme0n1" }

/-- The argument list of the single benchmark invocation in that scenario. -/
def fioArgsC7 : List String :=
  ["--group_reporting", "--name=default", "--filename=/dev/nvme0n1",
   "--time_based=1", "--runtime=30", "--gtod_reduce=1", "--clocksource=cpu",
   "--readwrite=read", "--blocksize=4096", "--direct=1",
   "--cpus_allowed_policy=split", "--cpus_allowed=0-0", "--numjobs=1",
   "--ioengine=io_uring", "--iodepth=1", "--fixedbufs=1", "--registerfiles=1",
   "--nonvectored=1", "--ramp=10", "--norandommap", "--random_generator=lfsr"]

/-- C7: the samples=1 single-point scenario produces exactly one external
benchmark invocation, whose argument list includes --blocksize=4096,
--numjobs=1, --readwrite=read and --iodepth=1, and performs zero
control-file writes to the simulated-device tree. -/
theorem claim_C7_end_to_end :
    (run_workloads none cfgC7 Env.allOk initState)
      = (⟨1, [Event.testStart "4k" 1 "read" 1,
          Event.writeFile "/sys/block/nvme0n1/queue/scheduler" "none",
          Event.writeFile "/sys/block/nvme0n1/queue/iostats" "0",
          Event.spawn "fio" fioArgsC7 none none]⟩, Except.ok ())
    ∧ countSpawns (run_workloads none cfgC7 Env.allOk initState).1.trace = 1
    ∧ "--blocksize=4096" ∈ fioArgsC7
    ∧ "--numjobs=1" ∈ fioArgsC7
    ∧ "--readwrite=read" ∈ fioArgsC7
    ∧ "--iodepth=1" ∈ fioArgsC7
    ∧ nullbEvents (run_workloads none cfgC7 Env.allOk initState).1.trace = [] := by
  have htr : (run_workloads none cfgC7 Env.allOk initState)
      = (⟨1, [Event.testStart "4k" 1 "read" 1,
          Event.writeFile "/sys/block/nvme0n1/queue/scheduler" "none",
          Event.writeFile "/sys/block/nvme0n1/queue/iostats" "0",
          Event.spawn "fio" fioArgsC7 none none]⟩, Except.ok ()) := by decide
  refine ⟨htr, ?_, by decide, by decide, by decide, by decide, ?_⟩
  · rw [htr]
    decide
  · rw [htr]
    decide

/-- The stream redirections of each spawned process, in spawn order. -/
def spawnRedirs (tr : List Event) : List (Option String × Option String) :=
  tr.filterMap fun e => match e with
    | Event.spawn _ _ so se => some (so, se)
    | _ => none

/-- The single-point scenario with capture and prep enabled. -/
def cfgC9 : Config :=
  { Config.default with samples := 1, device := "nvme0n1", capture := true, prep := true }

/-- C9: with capture enabled, the spawned benchmark processes do NOT get the
redirections the spec claims: because `Command::stderr`
(src/src/command.rs:40-43) forwards to `process::Command::stdout`, the
child's standard output is redirected to the per-run `.stderr` file (and
`-prep.stderr` for the prep pass) — overwriting the `.stdout` redirection
set just before — and the child's standard error is not redirected at all.
This theorem evaluates the embedding on a capture-enabled run: the prep and
measurement spawns carry stdout = the `.stderr`-named file and stderr =
none. -/
theorem claim_C9_stream_redirection :
    spawnRedirs (run_workloads (some "batch") cfgC9 Env.allOk initState).1.trace
      = [(some "batch/0/j1-r30-wread-bs4k-qd1-prep.stderr", none),
         (some "batch/0/j1-r30-wread-bs4k-qd1.stderr", none)]
    ∧ (run_workloads (some "batch") cfgC9 Env.allOk initState).2 = Except.ok () := by
  constructor
  · decide
  · decide

/-- The single-point scenario with the simulated device configured (so that
per-point teardown has an observable side effect: the removal of the nullb
control directories). -/
def cfgC1 : Config :=
  { Config.default with samples := 1, device := "testblk", configure_c_nullblk := true }

/-- An environment in which the first spawned process (the measurement of
the only SweepPoint of `cfgC1`) exits with the given nonzero code and every
other process succeeds. -/
def envFail (code : Nat) : Env :=
  { Env.allOk with
    procResult := fun i => if i = 0 then Except.error code else Except.ok () }

/-- Number of simulated-device teardown events (removals of the nullb
control directories) in a trace. -/
def countRemoveCnull (tr : List Event) : Nat :=
  tr.countP fun e => match e with
    | Event.removeCnullDirs => true
    | _ => false

/-- C1 counterexample: in a single-point sweep with the simulated device
configured, when the measurement phase fails the controller does NOT perform
the point's teardown — the `?` on the measurement call
(src/src/main.rs:283-291) propagates the error before `teardown` runs.  The
trace of the failing run contains no removal of the simulated device's
control directory (the claim requires exactly one), while the error is
returned wrapped in the "Failed to run test" context. -/
theorem claim_C1_teardown_counterexample :
    countRemoveCnull (run_workloads none cfgC1 (envFail 7) initState).1.trace = 0
    ∧ countSpawns (run_workloads none cfgC1 (envFail 7) initState).1.trace = 1
    ∧ (run_workloads none cfgC1 (envFail 7) initState).2
        = Except.error (Err.ctx "Failed to run test"
            (Err.ctx "Fio workload failed" (Err.procFailed 7))) := by
  refine ⟨by decide, by decide, by decide⟩

/-- C1 (amended): when a point's measurement fails, the error is wrapped
with context and propagated immediately and that point's teardown is NOT
performed (its side effects are observed zero times); teardown side effects
are observed exactly once per point only when setup and measurement succeed. -/
theorem claim_C1_teardown_on_failure :
    (∀ code : Nat,
      countRemoveCnull (run_workloads none cfgC1 (envFail code) initState).1.trace = 0
      ∧ (run_workloads none cfgC1 (envFail code) initState).2
          = Except.error (Err.ctx "Failed to run test"
              (Err.ctx "Fio workload failed" (Err.procFailed code))))
    ∧ countRemoveCnull (run_workloads none cfgC1 Env.allOk initState).1.trace = 1
    ∧ (run_workloads none cfgC1 Env.allOk initState).2 = Except.ok () := by
  refine ⟨fun code => ⟨rfl, rfl⟩, by decide, by decide⟩

/-- C8: configuration validation accepts exactly the configurations in which
none of these hold: (a) both insmod and modprobe selected, (b) a module
specified without insmod or modprobe, (c) compress without capture,
(d) a remote endpoint without compress or without capture; and a rejected
configuration aborts before any host mutation (the program's trace is
empty and the validation error is returned). -/
theorem claim_C8_config_validation :
    ∀ cfg : Config,
      ((config_verify cfg = Except.ok ()) ↔
        ¬((cfg.insmod && cfg.modprobe) = true
          ∨ (cfg.module.isSome && !(cfg.insmod || cfg.modprobe)) = true
          ∨ (cfg.compress && !cfg.capture) = true
          ∨ (cfg.remote.isSome && (!cfg.compress || !cfg.capture)) = true))
      ∧ (∀ env : Env, config_verify cfg ≠ Except.ok () →
          (run_program cfg env).1.trace = []
          ∧ ∃ e, (run_program cfg env).2 = Except.error e) := by
  intro cfg
  constructor
  · simp only [config_verify]
    split_ifs with h1 h2 h3 h4 h5 <;> simp_all
  · intro env h
    cases hv : config_verify cfg with
    | ok u =>
        cases u
        exact absurd hv h
    | error e =>
        simp only [run_program, hv]
        exact ⟨rfl, e, rfl⟩

/-- A configuration rejected by validation: both insmod and modprobe. -/
def badCfg : Config :=
  { Config.default with insmod := true, modprobe := true, module := some "mod" }

theorem claim_C8_config_validation_witness :
    config_verify badCfg ≠ Except.ok ()
    ∧ (run_program badCfg Env.allOk).1.trace = []
    ∧ ∃ e, (run_program badCfg Env.allOk).2 = Except.error e :=
  ⟨by decide,
    ((claim_C8_config_validation badCfg).2 Env.allOk (by decide)).1,
    ((claim_C8_config_validation badCfg).2 Env.allOk (by decide)).2⟩
